import Mathlib

set_option maxHeartbeats 1000000
set_option maxRecDepth 8000

namespace GameTracker

/-!
Shallow embedding of the completed-games tracker:
`src/utilities/steam_api.py`, `src/utilities/file_helpers.py` and
`src/routes/api.py`.  Network and file-system effects are abstracted as
explicit inputs (an `Option` response models an HTTP request that may
fail, booleans model the outcomes of file writes); everything else is a
direct translation of the Python source.

Python string operations are modelled over `String.data` (`List Char`)
so that they evaluate on concrete inputs: `pyLower` is `str.lower`,
`pyStrip` is `str.strip`, `strLe` is `<=` on strings (lexicographic by
code point), `strHas` is the `in` substring test.  These agree with
CPython on the ASCII data this program handles.
-/

/-- Python `str.lower`: lower-case every character. -/
def pyLower (s : String) : String := ⟨s.data.map Char.toLower⟩

/-- Python `str.strip`: drop whitespace from both ends. -/
def pyStrip (s : String) : String :=
  ⟨((s.data.dropWhile Char.isWhitespace).reverse.dropWhile Char.isWhitespace).reverse⟩

/-- Lexicographic `<=` on character lists by code point, as Python
compares strings. -/
def charListLe : List Char → List Char → Bool
  | [], _ => true
  | _ :: _, [] => false
  | a :: as, b :: bs =>
    if a.toNat < b.toNat then true
    else if b.toNat < a.toNat then false
    else charListLe as bs

/-- Python `s <= t` on strings. -/
def strLe (a b : String) : Bool := charListLe a.data b.data

/-- Does the first character list start with the second? -/
def charsStarts : List Char → List Char → Bool
  | _, [] => true
  | [], _ :: _ => false
  | a :: as, b :: bs => a == b && charsStarts as bs

/-- Does the first character list contain the second as a contiguous
run? -/
def charsHas : List Char → List Char → Bool
  | [], needle => needle.isEmpty
  | a :: as, needle => charsStarts (a :: as) needle || charsHas as needle

/-- Python `needle in hay` on strings: contiguous substring test. -/
def strHas (hay needle : String) : Bool := charsHas hay.data needle.data

theorem charListLe_total : ∀ as bs, charListLe as bs || charListLe bs as
  | [], _ => by simp [charListLe]
  | _ :: _, [] => by simp [charListLe]
  | a :: as, b :: bs => by
    simp only [charListLe]
    rcases Nat.lt_trichotomy a.toNat b.toNat with h | h | h
    · simp [h]
    · simp [h, Nat.lt_irrefl, charListLe_total as bs]
    · simp [h, Nat.lt_asymm h]

theorem charListLe_trans :
    ∀ as bs cs, charListLe as bs → charListLe bs cs → charListLe as cs
  | [], _, _, _, _ => rfl
  | _ :: _, [], _, h1, _ => by simp [charListLe] at h1
  | _ :: _, _ :: _, [], _, h2 => by simp [charListLe] at h2
  | a :: as, b :: bs, c :: cs, h1, h2 => by
    simp only [charListLe] at h1 h2 ⊢
    rcases Nat.lt_trichotomy a.toNat b.toNat with hab | hab | hab <;>
      rcases Nat.lt_trichotomy b.toNat c.toNat with hbc | hbc | hbc
    · simp [show a.toNat < c.toNat by omega]
    · simp [show a.toNat < c.toNat by omega]
    · simp [show ¬ b.toNat < c.toNat by omega, hbc] at h2
    · simp [show a.toNat < c.toNat by omega]
    · have h1x : charListLe as bs := by
        simpa [show ¬ a.toNat < b.toNat by omega,
          show ¬ b.toNat < a.toNat by omega] using h1
      have h2x : charListLe bs cs := by
        simpa [show ¬ b.toNat < c.toNat by omega,
          show ¬ c.toNat < b.toNat by omega] using h2
      simpa [show ¬ a.toNat < c.toNat by omega,
        show ¬ c.toNat < a.toNat by omega] using charListLe_trans as bs cs h1x h2x
    · simp [show ¬ b.toNat < c.toNat by omega, hbc] at h2
    · simp [show ¬ a.toNat < b.toNat by omega, hab] at h1
    · simp [show ¬ a.toNat < b.toNat by omega, hab] at h1
    · simp [show ¬ a.toNat < b.toNat by omega, hab] at h1

/-! ### `get_owned_games` (`src/utilities/steam_api.py:11-57`) -/

/-- A game record as returned by the Steam owned-games endpoint.
`name = none` models a JSON object that has no `"name"` key. -/
structure OwnedGame where
  appid : Nat
  name : Option String
  deriving DecidableEq, Repr

/-- The sort key of `steam_api.py:40`: `x.get("name", "z").lower()`. -/
def nameKey (g : OwnedGame) : String := pyLower (g.name.getD "z")

/-- The in-place sort of `steam_api.py:40`, with key `nameKey`
(`games.sort`): a stable ascending sort by `nameKey`, as CPython's
stable `list.sort`. -/
def sortGames (gs : List OwnedGame) : List OwnedGame :=
  gs.mergeSort (fun a b => strLe (nameKey a) (nameKey b))

/-- The JSON object `data["response"]` of a successful owned-games HTTP
call.  `games = none` models a response object without a `"games"` key,
`game_count = none` one without a `"game_count"` key. -/
structure OwnedGamesResponse where
  games : Option (List OwnedGame)
  game_count : Option Nat
  deriving DecidableEq, Repr

/-- Return value of `get_owned_games`: the Python function returns
`(True, games, total_count)` on success and `(False, message, 0)` on
failure. -/
inductive OwnedGamesReturn
  | success (games : List OwnedGame) (total : Nat)
  | failure (msg : String)
  deriving DecidableEq, Repr

/-- Function `get_owned_games` (`steam_api.py:11-57`), abstracted over the HTTP
outcome: `resp = none` models any raised `requests` exception, a falsy
body, or a body with no `"response"` key, all of which return
`(False, <message>, 0)`; the distinct error strings of the `except`
branches are collapsed into one since no caller inspects them.  On the
success path the games list is sorted by `nameKey` and `total_count`
defaults to the length of the games list. -/
def get_owned_games (resp : Option OwnedGamesResponse) : OwnedGamesReturn :=
  match resp with
  | none => .failure "Invalid response from Steam API. Check ID or profile privacy."
  | some r =>
    match r.games with
    | none => .failure "Invalid response from Steam API. Check ID or profile privacy."
    | some games =>
      let total := r.game_count.getD games.length
      .success (sortGames games) total

def zeldaGame : OwnedGame := ⟨1, some "Zelda"⟩
def alphaGame : OwnedGame := ⟨2, some "alpha"⟩
def noNameGame : OwnedGame := ⟨3, none⟩

/-- C1 is false on the code: on input `[Zelda, alpha, <no name>]` the
success path of `get_owned_games` returns `[alpha, <no name>, Zelda]`,
not the claimed `[alpha, Zelda, <no name>]`.  The missing-name default
sort key is the literal string `"z"`, which sorts before `"zelda"`, so
a no-name entry is NOT placed after all named entries. -/
theorem c1_counterexample :
    get_owned_games (some ⟨some [zeldaGame, alphaGame, noNameGame], some 3⟩)
      = .success [alphaGame, noNameGame, zeldaGame] 3
    ∧ [alphaGame, noNameGame, zeldaGame] ≠ [alphaGame, zeldaGame, noNameGame] := by
  constructor
  · show OwnedGamesReturn.success (sortGames [zeldaGame, alphaGame, noNameGame]) 3 = _
    have : sortGames [zeldaGame, alphaGame, noNameGame]
        = [alphaGame, noNameGame, zeldaGame] := by
      simp [sortGames, List.mergeSort, List.splitInTwo, List.merge, strLe, charListLe,
        nameKey, pyLower, zeldaGame, alphaGame, noNameGame]
    rw [this]
  · decide

/-- C1 amended: every successful `get_owned_games` call returns a
permutation of the fetched games, sorted ascending by the
case-insensitive name where a missing name is given the literal key
`"z"` (so a no-name entry sorts before any name whose lower-casing is
greater than `"z"`, e.g. before `"Zelda"`). -/
theorem c1_sorted (l : List OwnedGame) (c : Option Nat) (gs : List OwnedGame) (t : Nat)
    (h : get_owned_games (some ⟨some l, c⟩) = .success gs t) :
    gs.Perm l ∧ gs.Pairwise (fun a b => strLe (nameKey a) (nameKey b) = true) := by
  have hgs : gs = sortGames l := by
    simp only [get_owned_games] at h
    cases h
    rfl
  subst hgs
  constructor
  · exact List.mergeSort_perm l _
  · exact @List.sorted_mergeSort OwnedGame
      (fun a b => strLe (nameKey a) (nameKey b))
      (fun a b c => charListLe_trans _ _ _)
      (fun a b => charListLe_total _ _) l

/-- Witness for `c1_sorted` at the concrete spec example. -/
theorem c1_sorted_witness :
    get_owned_games (some ⟨some [zeldaGame, alphaGame, noNameGame], some 3⟩)
      = .success (sortGames [zeldaGame, alphaGame, noNameGame]) 3
    ∧ ((sortGames [zeldaGame, alphaGame, noNameGame]).Perm
        [zeldaGame, alphaGame, noNameGame]
      ∧ (sortGames [zeldaGame, alphaGame, noNameGame]).Pairwise
          (fun a b => strLe (nameKey a) (nameKey b) = true)) :=
  ⟨rfl, c1_sorted [zeldaGame, alphaGame, noNameGame] (some 3) _ 3 rfl⟩

/-! ### File loaders (`src/utilities/file_helpers.py`) -/

/-- State of a JSON file on disk as a loader sees it: the file may be
missing, present but not valid JSON, or present with parsed content
`a`. -/
inductive FileState (α : Type)
  | missing
  | corrupt
  | valid (a : α)
  deriving DecidableEq, Repr

/-- Parsed `config.json`.  Either key may be absent from the dict. -/
structure ConfigFile where
  steam_api_key : Option String
  steam_id : Option String
  deriving DecidableEq, Repr

/-- Parsed `library.json`. -/
structure LibraryFile where
  games : List OwnedGame
  last_updated : Nat
  deriving DecidableEq, Repr

/-- The per-game DLC map stored under the `"dlc"` key of `dlc.json`:
an insertion-ordered dict from stringified appid to the list of DLC
appids. -/
abbrev DlcMap := List (String × List Nat)

/-- Parsed `dlc.json`.  `dlc = none` models a parsed object that has no
`"dlc"` key (the callers use `.get("dlc", {})`). -/
structure DlcJson where
  dlc : Option DlcMap
  deriving DecidableEq, Repr

/-- An entry of the completed-games log `completed.json`, as written by
`api_log_completion` (`api.py:216-227`). -/
structure CompletionEntry where
  id : String
  appid : String
  game_name : String
  completion_date : String
  is_dlc_expansion : Bool
  notes : String
  collection_name : Option String
  logged_at : String
  deriving DecidableEq, Repr

/-- Function `load_config` (`file_helpers.py:54-59`): returns the empty
dict (no keys) when the file
is missing; a `json.JSONDecodeError` on corrupt content is NOT caught
and propagates (modelled as `.error`). -/
def load_config : FileState ConfigFile → Except String ConfigFile
  | .missing => .ok ⟨none, none⟩
  | .corrupt => .error "json.JSONDecodeError"
  | .valid c => .ok c

/-- Function `load_library_cache` (`file_helpers.py:72-77`): returns the empty
library with zero timestamp when the file is missing; a parse error on
corrupt content is NOT caught and propagates. -/
def load_library_cache : FileState LibraryFile → Except String LibraryFile
  | .missing => .ok ⟨[], 0⟩
  | .corrupt => .error "json.JSONDecodeError"
  | .valid l => .ok l

/-- Function `load_dlc_cache` (`file_helpers.py:90-95`): returns a dict
holding an empty DLC map when the file is missing; a parse error on corrupt content is NOT
caught and propagates. -/
def load_dlc_cache : FileState DlcJson → Except String DlcJson
  | .missing => .ok ⟨some []⟩
  | .corrupt => .error "json.JSONDecodeError"
  | .valid d => .ok d

/-- Function `load_completed_log` (`file_helpers.py:108-117`): returns `[]` when
the file is missing, and — alone among the four loaders — also catches
`json.JSONDecodeError` and returns `[]` on corrupt content. -/
def load_completed_log : FileState (List CompletionEntry) → Except String (List CompletionEntry)
  | .missing => .ok []
  | .corrupt => .ok []
  | .valid l => .ok l

/-- C2 is false on the code: `load_library_cache` raises (here:
returns `.error`) on corrupt content instead of returning the empty
library, so `load` does not "never fail" for every document kind. -/
theorem c2_counterexample :
    (load_library_cache .corrupt).isOk = false
    ∧ load_library_cache .corrupt ≠ .ok ⟨[], 0⟩ := by
  constructor
  · rfl
  · intro h
    cases h

/-- C2 amended: on MISSING storage all four loaders return their
documented defaults (empty credentials, empty library with zero
timestamp, empty DLC map, empty completion list), and the completion
log additionally returns its default on corrupt content; but the
credentials, library-cache and DLC-cache loaders propagate the JSON
parse error on corrupt content instead of returning a default. -/
theorem c2_defaults :
    load_config .missing = .ok ⟨none, none⟩
    ∧ load_library_cache .missing = .ok ⟨[], 0⟩
    ∧ load_dlc_cache .missing = .ok ⟨some []⟩
    ∧ load_completed_log .missing = .ok []
    ∧ load_completed_log .corrupt = .ok []
    ∧ (load_config .corrupt).isOk = false
    ∧ (load_library_cache .corrupt).isOk = false
    ∧ (load_dlc_cache .corrupt).isOk = false := by
  refine ⟨rfl, rfl, rfl, rfl, rfl, rfl, rfl, rfl⟩

/-! ### `get_app_details` and `refresh_library_cache`
(`src/utilities/steam_api.py:60-161`) -/

/-- The `"data"` field of an appdetails response, when it is a truthy
(non-empty) dict.  `dlc = none` models a dict without a `"dlc"` key;
`dlc = some []` one whose `"dlc"` value is the empty (falsy) list. -/
structure DetailsData where
  dlc : Option (List Nat)
  deriving DecidableEq, Repr

/-- The JSON object `data[str(appid)]` of a parsed appdetails body.
`success = none` models an object with no `"success"` key; `data = none`
models a `"data"` field that is absent, `None`, or a falsy empty
dict. -/
structure AppDetailsResponse where
  success : Option Bool
  data : Option DetailsData
  deriving DecidableEq, Repr

/-- Function `get_app_details` (`steam_api.py:60-88`), abstracted over the HTTP
outcome: `resp = none` models a raised `requests`/JSON exception, a
falsy body, or a body with no `str(appid)` key, all of which return
`(False, None)`.  Otherwise the function returns `(True, data)` exactly
when the `"success"` flag is the literal `True`, and `(False, None)`
when the flag is absent or not `True`. -/
def get_app_details (resp : Option AppDetailsResponse) : Bool × Option DetailsData :=
  match resp with
  | none => (false, none)
  | some r => if r.success = some true then (true, r.data) else (false, none)

/-- One observable event of the DLC-enrichment loop of
`refresh_library_cache`: an attempted `get_app_details` call for an
appid, or a `time.sleep(0.05)` pacing delay. -/
inductive RefreshEvent
  | fetch (appid : String)
  | sleep
  deriving DecidableEq, Repr

def RefreshEvent.isFetch : RefreshEvent → Bool
  | .fetch _ => true
  | .sleep => false

def RefreshEvent.isSleep : RefreshEvent → Bool
  | .fetch _ => false
  | .sleep => true

/-- Python dict assignment `m[k] = v`: replace the value when the key
is present (keys keep their positions), append the pair otherwise. -/
def updMap (m : DlcMap) (k : String) (v : List Nat) : DlcMap :=
  if (m.map Prod.fst).contains k then
    m.map (fun p => if p.1 = k then (k, v) else p)
  else m ++ [(k, v)]

/-- Result of the DLC-enrichment loop: the updated map, the
`dlc_fetch_count` counter, and the event trace. -/
structure DlcLoopOut where
  map : DlcMap
  count : Nat
  events : List RefreshEvent
  deriving DecidableEq, Repr

/-- The loop of `steam_api.py:139-152` over `games_to_check[:50]`
(the truncation to 50 is applied by the caller).  For each game it
calls `get_app_details(str(game["appid"]))`; when that returns a truthy
success with truthy details it records the `"dlc"` list (or `[]` when
the key is absent or its value falsy), bumps `dlc_fetch_count`, and
sleeps 50 ms; otherwise it records nothing and moves on without
sleeping. -/
def dlcLoop (oracle : String → Option AppDetailsResponse) :
    List OwnedGame → DlcMap → DlcLoopOut
  | [], m => ⟨m, 0, []⟩
  | g :: gs, m =>
    let appid := toString g.appid
    let res := get_app_details (oracle appid)
    if res.1 && res.2.isSome then
      let d := res.2.getD ⟨none⟩
      let v : List Nat :=
        match d.dlc with
        | some l => if !l.isEmpty then l else []
        | none => []
      let rest := dlcLoop oracle gs (updMap m appid v)
      ⟨rest.map, rest.count + 1, .fetch appid :: .sleep :: rest.events⟩
    else
      let rest := dlcLoop oracle gs m
      ⟨rest.map, rest.count, .fetch appid :: rest.events⟩

/-- Computation of `games_to_check` (`steam_api.py:132-134`): the fetched games whose
stringified appid is not yet a key of the DLC map. -/
def gamesToCheck (games : List OwnedGame) (m : DlcMap) : List OwnedGame :=
  games.filter (fun g => !((m.map Prod.fst).contains (toString g.appid)))

/-- The environment of one `refresh_library_cache` invocation: the
config dict (either key may be absent), the owned-games HTTP outcome,
the outcome of the two file writes, the state of `dlc.json`, the
appdetails HTTP outcome per appid, and the current time. -/
structure RefreshEnv where
  steam_api_key : Option String
  steam_id : Option String
  ownedResp : Option OwnedGamesResponse
  saveLibraryOk : Bool
  dlcFile : FileState DlcJson
  appDetailsResp : String → Option AppDetailsResponse
  saveDlcOk : Bool
  now : Nat

/-- Content written to `library.json` by `refresh_library_cache`
(`steam_api.py:112-116`). -/
structure LibraryData where
  last_updated : Nat
  game_count : Nat
  games : List OwnedGame
  deriving DecidableEq, Repr

/-- Observable outcome of one `refresh_library_cache` invocation: the
returned `(success, message)` pair, the data durably written to
`library.json` and `dlc.json` (`none` when the write failed or was
never attempted), the DLC-loop event trace and `dlc_fetch_count`. -/
structure RefreshOutput where
  ok : Bool
  message : String
  savedLibrary : Option LibraryData
  savedDlc : Option DlcJson
  events : List RefreshEvent
  dlcFetchCount : Nat
  deriving DecidableEq, Repr

/-- The final message of `steam_api.py:160`. -/
def refreshMessage (total cnt : Nat) : String :=
  "Library refreshed successfully (" ++ toString total
    ++ " games). Checked " ++ toString cnt ++ " new games for DLC."

/-- Function `refresh_library_cache` (`steam_api.py:91-161`).  The `.error` case
models the uncaught exception that `load_dlc_cache` raises on a corrupt
`dlc.json`; every other path is a normal return.  A failed
`save_library_cache` aborts with failure; a failed `save_dlc_cache` is
only logged (`steam_api.py:156-158`) and the function still returns
success. -/
def refresh_library_cache (env : RefreshEnv) : Except String RefreshOutput :=
  let api_key := env.steam_api_key.getD ""
  let steam_id := env.steam_id.getD ""
  if api_key = "" || steam_id = "" then
    .ok ⟨false, "API Key or Steam ID is missing from configuration.", none, none, [], 0⟩
  else
    match get_owned_games env.ownedResp with
    | .failure msg => .ok ⟨false, msg, none, none, [], 0⟩
    | .success games total =>
      let library_data : LibraryData := ⟨env.now, total, games⟩
      if !env.saveLibraryOk then
        .ok ⟨false,
          "Successfully fetched data but failed to save the main library cache file.",
          none, none, [], 0⟩
      else
        match load_dlc_cache env.dlcFile with
        | .error e => .error e
        | .ok dlcCache =>
          let current_dlc_map := dlcCache.dlc.getD []
          let toCheck := gamesToCheck games current_dlc_map
          let loopOut := dlcLoop env.appDetailsResp (toCheck.take 50) current_dlc_map
          .ok ⟨true, refreshMessage total loopOut.count,
            some library_data,
            if env.saveDlcOk then some ⟨some loopOut.map⟩ else none,
            loopOut.events, loopOut.count⟩

theorem dlcLoop_countFetch (oracle : String → Option AppDetailsResponse) :
    ∀ (gs : List OwnedGame) (m : DlcMap),
      ((dlcLoop oracle gs m).events.countP RefreshEvent.isFetch) = gs.length
  | [], _ => rfl
  | g :: gs, m => by
    simp only [dlcLoop]
    split
    · simp [List.countP_cons, RefreshEvent.isFetch, dlcLoop_countFetch oracle gs]
    · simp [List.countP_cons, RefreshEvent.isFetch, dlcLoop_countFetch oracle gs]

theorem dlcLoop_countSleep (oracle : String → Option AppDetailsResponse) :
    ∀ (gs : List OwnedGame) (m : DlcMap),
      ((dlcLoop oracle gs m).events.countP RefreshEvent.isSleep)
        = (dlcLoop oracle gs m).count
  | [], _ => rfl
  | g :: gs, m => by
    simp only [dlcLoop]
    split
    · simp [List.countP_cons, RefreshEvent.isSleep, dlcLoop_countSleep oracle gs]
    · simp [List.countP_cons, RefreshEvent.isSleep, dlcLoop_countSleep oracle gs]

theorem dlcLoop_fetch_mem (oracle : String → Option AppDetailsResponse) :
    ∀ (gs : List OwnedGame) (m : DlcMap) (k : String),
      RefreshEvent.fetch k ∈ (dlcLoop oracle gs m).events →
      k ∈ gs.map (fun g => toString g.appid)
  | [], _, k => by simp [dlcLoop]
  | g :: gs, m, k => by
    simp only [dlcLoop]
    split
    · intro h
      simp only [List.mem_cons] at h
      rcases h with h | h | h
      · cases h
        simp
      · cases h
      · exact List.mem_cons_of_mem _ (dlcLoop_fetch_mem oracle gs _ k h)
    · intro h
      simp only [List.mem_cons] at h
      rcases h with h | h
      · cases h
        simp
      · exact List.mem_cons_of_mem _ (dlcLoop_fetch_mem oracle gs _ k h)

theorem updMap_keys (m : DlcMap) (k : String) (v : List Nat) :
    (updMap m k v).map Prod.fst
      = if (m.map Prod.fst).contains k then m.map Prod.fst
        else m.map Prod.fst ++ [k] := by
  unfold updMap
  split
  · rw [List.map_map]
    apply List.map_congr_left
    intro p _
    by_cases hp : p.1 = k
    · simp [hp]
    · simp [hp]
  · simp

theorem updMap_mem_keys (m : DlcMap) (k v : _) (x : String)
    (h : x ∈ (updMap m k v).map Prod.fst) : x ∈ m.map Prod.fst ∨ x = k := by
  rw [updMap_keys] at h
  split at h
  · exact Or.inl h
  · rcases List.mem_append.mp h with h | h
    · exact Or.inl h
    · exact Or.inr (List.mem_singleton.mp h)

theorem dlcLoop_keys_sub (oracle : String → Option AppDetailsResponse) :
    ∀ (gs : List OwnedGame) (m : DlcMap) (k : String),
      k ∈ ((dlcLoop oracle gs m).map.map Prod.fst) →
      k ∈ m.map Prod.fst ∨ k ∈ gs.map (fun g => toString g.appid)
  | [], _, k => by
    intro h
    exact Or.inl h
  | g :: gs, m, k => by
    simp only [dlcLoop]
    split
    · intro h
      rcases dlcLoop_keys_sub oracle gs _ k h with h | h
      · rcases updMap_mem_keys _ _ _ _ h with h | h
        · exact Or.inl h
        · exact Or.inr (by simp [h])
      · exact Or.inr (List.mem_cons_of_mem _ h)
    · intro h
      rcases dlcLoop_keys_sub oracle gs _ k h with h | h
      · exact Or.inl h
      · exact Or.inr (List.mem_cons_of_mem _ h)

/-- On the happy path (config present, owned-games fetch succeeds,
library save succeeds, `dlc.json` parses), `refresh_library_cache`
returns success with the sorted games persisted and the DLC loop run on
the first 50 unchecked games. -/
theorem refresh_success_shape (env : RefreshEnv) (l : List OwnedGame)
    (c : Option Nat) (dj : DlcJson)
    (hkey : env.steam_api_key.getD "" ≠ "")
    (hid : env.steam_id.getD "" ≠ "")
    (hresp : env.ownedResp = some ⟨some l, c⟩)
    (hsave : env.saveLibraryOk = true)
    (hdlc : env.dlcFile = .valid dj) :
    refresh_library_cache env = .ok
      ⟨true,
       refreshMessage (c.getD l.length)
         (dlcLoop env.appDetailsResp
           ((gamesToCheck (sortGames l) (dj.dlc.getD [])).take 50)
           (dj.dlc.getD [])).count,
       some ⟨env.now, c.getD l.length, sortGames l⟩,
       if env.saveDlcOk then
         some ⟨some (dlcLoop env.appDetailsResp
           ((gamesToCheck (sortGames l) (dj.dlc.getD [])).take 50)
           (dj.dlc.getD [])).map⟩
       else none,
       (dlcLoop env.appDetailsResp
         ((gamesToCheck (sortGames l) (dj.dlc.getD [])).take 50)
         (dj.dlc.getD [])).events,
       (dlcLoop env.appDetailsResp
         ((gamesToCheck (sortGames l) (dj.dlc.getD [])).take 50)
         (dj.dlc.getD [])).count⟩ := by
  unfold refresh_library_cache
  simp [hkey, hid, hresp, hsave, hdlc, get_owned_games, load_dlc_cache]

/-- C3: when the fetched library has at least quota-many (50) games
absent from the DLC-cache keys, exactly 50 app-details calls are
attempted in that single refresh invocation, and the unchecked games
beyond the first 50 stay absent from the DLC cache after the
refresh. -/
theorem c3_quota_enforced (env : RefreshEnv) (l : List OwnedGame)
    (c : Option Nat) (dj : DlcJson)
    (hkey : env.steam_api_key.getD "" ≠ "")
    (hid : env.steam_id.getD "" ≠ "")
    (hresp : env.ownedResp = some ⟨some l, c⟩)
    (hsave : env.saveLibraryOk = true)
    (hdlc : env.dlcFile = .valid dj)
    (hsaveDlc : env.saveDlcOk = true)
    (hmany : 50 ≤ (gamesToCheck (sortGames l) (dj.dlc.getD [])).length)
    (hnodup : ((gamesToCheck (sortGames l) (dj.dlc.getD [])).map
        (fun g => toString g.appid)).Nodup) :
    ∃ out : RefreshOutput, refresh_library_cache env = .ok out
      ∧ out.events.countP RefreshEvent.isFetch = 50
      ∧ ∃ m : DlcMap, out.savedDlc = some ⟨some m⟩
        ∧ ∀ g ∈ (gamesToCheck (sortGames l) (dj.dlc.getD [])).drop 50,
            toString g.appid ∉ m.map Prod.fst := by
  refine ⟨_, refresh_success_shape env l c dj hkey hid hresp hsave hdlc, ?_, ?_⟩
  · rw [dlcLoop_countFetch, List.length_take]
    omega
  · refine ⟨_, by rw [hsaveDlc]; rfl, ?_⟩
    intro g hg hmem
    set T := gamesToCheck (sortGames l) (dj.dlc.getD []) with hT
    have hginT : g ∈ T := List.drop_subset 50 T hg
    rcases dlcLoop_keys_sub env.appDetailsResp (T.take 50) (dj.dlc.getD [])
        (toString g.appid) hmem with h | h
    · have := (List.mem_filter.mp (hT ▸ hginT)).2
      simp only [Bool.not_eq_true', List.contains, List.elem_eq_mem,
        decide_eq_false_iff_not] at this
      exact this h
    · have hsplit : T.map (fun g => toString g.appid)
          = (T.take 50).map (fun g => toString g.appid)
            ++ (T.drop 50).map (fun g => toString g.appid) := by
        rw [← List.map_append, List.take_append_drop]
      have hnd := hnodup
      rw [hsplit] at hnd
      have hdisj := List.disjoint_of_nodup_append hnd
      exact hdisj h (List.mem_map.mpr ⟨g, hg, rfl⟩)

/-- C6: an appid that is already a key of the DLC cache at the start of
a refresh (even one whose stored value is the empty list) is never the
target of an app-details call during that refresh. -/
theorem c6_no_refetch (env : RefreshEnv) (l : List OwnedGame)
    (c : Option Nat) (dj : DlcJson) (k : String)
    (hkey : env.steam_api_key.getD "" ≠ "")
    (hid : env.steam_id.getD "" ≠ "")
    (hresp : env.ownedResp = some ⟨some l, c⟩)
    (hsave : env.saveLibraryOk = true)
    (hdlc : env.dlcFile = .valid dj)
    (hk : k ∈ (dj.dlc.getD []).map Prod.fst) :
    ∃ out : RefreshOutput, refresh_library_cache env = .ok out
      ∧ RefreshEvent.fetch k ∉ out.events := by
  refine ⟨_, refresh_success_shape env l c dj hkey hid hresp hsave hdlc, ?_⟩
  intro hmem
  have h := dlcLoop_fetch_mem env.appDetailsResp _ _ k hmem
  rcases List.mem_map.mp h with ⟨g, hg, hgk⟩
  have hginT : g ∈ gamesToCheck (sortGames l) (dj.dlc.getD []) :=
    List.take_subset 50 _ hg
  have := (List.mem_filter.mp hginT).2
  simp only [Bool.not_eq_true', List.contains, List.elem_eq_mem,
    decide_eq_false_iff_not] at this
  exact this (hgk ▸ hk)

/-- C7: when the owned-games fetch and the library-cache save both
succeed, a failure to save the DLC cache does not downgrade the result:
the refresh still reports success and the persisted library cache holds
the newly fetched (sorted) games. -/
theorem c7_partial_failure_isolated (env : RefreshEnv) (l : List OwnedGame)
    (c : Option Nat) (dj : DlcJson)
    (hkey : env.steam_api_key.getD "" ≠ "")
    (hid : env.steam_id.getD "" ≠ "")
    (hresp : env.ownedResp = some ⟨some l, c⟩)
    (hsave : env.saveLibraryOk = true)
    (hdlc : env.dlcFile = .valid dj)
    (hdlcfail : env.saveDlcOk = false) :
    ∃ out : RefreshOutput, refresh_library_cache env = .ok out
      ∧ out.ok = true
      ∧ out.savedLibrary = some ⟨env.now, c.getD l.length, sortGames l⟩
      ∧ out.savedDlc = none := by
  refine ⟨_, refresh_success_shape env l c dj hkey hid hresp hsave hdlc,
    rfl, rfl, ?_⟩
  rw [hdlcfail]
  rfl

def games120 : List OwnedGame := (List.range 120).map (fun i => ⟨i, none⟩)

def env120 : RefreshEnv :=
  ⟨some "k", some "s", some ⟨some games120, some 120⟩, true, .valid ⟨some []⟩,
   fun _ => none, true, 0⟩

/-- Witness for `c3_quota_enforced`: 120 unchecked games, empty DLC
cache, quota 50. -/
theorem c3_quota_enforced_witness :
    ∃ out : RefreshOutput, refresh_library_cache env120 = .ok out
      ∧ out.events.countP RefreshEvent.isFetch = 50
      ∧ ∃ m : DlcMap, out.savedDlc = some ⟨some m⟩
        ∧ ∀ g ∈ (gamesToCheck (sortGames games120)
            ((⟨some []⟩ : DlcJson).dlc.getD [])).drop 50,
            toString g.appid ∉ m.map Prod.fst := by
  have hTC : gamesToCheck (sortGames games120) ((⟨some []⟩ : DlcJson).dlc.getD [])
      = sortGames games120 := by
    simp [gamesToCheck]
  have hlen : (sortGames games120).length = games120.length :=
    (List.mergeSort_perm games120 _).length_eq
  apply c3_quota_enforced env120 games120 (some 120) ⟨some []⟩
    (by decide) (by decide) rfl rfl rfl rfl
  · rw [hTC, hlen]
    decide
  · rw [hTC]
    have hperm : (sortGames games120).map (fun g => toString g.appid)
        |>.Perm (games120.map (fun g => toString g.appid)) :=
      (List.mergeSort_perm games120 _).map _
    exact hperm.nodup_iff.mpr (by decide)

def env6 : RefreshEnv :=
  ⟨some "k", some "s", some ⟨some [⟨10, some "a"⟩, ⟨20, some "b"⟩], some 2⟩, true,
   .valid ⟨some [("10", [])]⟩, fun _ => none, true, 0⟩

/-- Witness for `c6_no_refetch`: appid 10 is already cached with an
EMPTY DLC list and is still not re-fetched. -/
theorem c6_no_refetch_witness :
    ∃ out : RefreshOutput, refresh_library_cache env6 = .ok out
      ∧ RefreshEvent.fetch "10" ∉ out.events :=
  c6_no_refetch env6 [⟨10, some "a"⟩, ⟨20, some "b"⟩] (some 2) ⟨some [("10", [])]⟩ "10"
    (by decide) (by decide) rfl rfl rfl (by decide)

def env7 : RefreshEnv :=
  ⟨some "k", some "s", some ⟨some [zeldaGame], some 1⟩, true, .valid ⟨some []⟩,
   fun _ => none, false, 42⟩

/-- Witness for `c7_partial_failure_isolated`: DLC-cache save fails,
refresh still succeeds with the library persisted. -/
theorem c7_partial_failure_isolated_witness :
    ∃ out : RefreshOutput, refresh_library_cache env7 = .ok out
      ∧ out.ok = true
      ∧ out.savedLibrary = some ⟨42, 1, sortGames [zeldaGame]⟩
      ∧ out.savedDlc = none :=
  c7_partial_failure_isolated env7 [zeldaGame] (some 1) ⟨some []⟩
    (by decide) (by decide) rfl rfl rfl rfl

/-- An environment whose app-details oracle answers with the success
flag `True` but with no `"data"` field at all. -/
def env4 : RefreshEnv :=
  ⟨some "k", some "s", some ⟨some [⟨10, some "a"⟩], some 1⟩, true, .valid ⟨some []⟩,
   fun _ => some ⟨some true, none⟩, true, 0⟩

/-- C4 is false on the code in the "succeeds with an absent DLC list"
case: when `get_app_details` returns success `True` with an absent
`data` field, `refresh_library_cache` records NOTHING for the appid
(the saved DLC map stays empty), whereas the claim demands
`map["10"] = []`. -/
theorem c4_counterexample :
    refresh_library_cache env4
      = .ok ⟨true, refreshMessage 1 0, some ⟨0, 1, [⟨10, some "a"⟩]⟩,
             some ⟨some []⟩, [.fetch "10"], 0⟩
    ∧ (some (⟨some []⟩ : DlcJson) ≠ some (⟨some [("10", [])]⟩ : DlcJson)) := by
  constructor
  · rw [refresh_success_shape env4 [⟨10, some "a"⟩] (some 1) ⟨some []⟩
      (by decide) (by decide) rfl rfl rfl]
    rw [show sortGames [⟨10, some "a"⟩] = [⟨10, some "a"⟩] from by
      simp [sortGames, List.mergeSort]]
    simp only [Except.ok.injEq]
    decide
  · decide

/-- C4 amended: per checked game, on success with truthy details the
DLC map records the non-empty `dlc` list under the appid, or the empty
list when the `dlc` key is absent or its value empty; on a failed
lookup — or on a success whose `data` field is absent or falsy — the
map is left unchanged, so the appid stays absent and is retried on the
next refresh. -/
theorem c4_dlc_recording (oracle : String → Option AppDetailsResponse)
    (g : OwnedGame) (m : DlcMap) :
    (∀ d lst, get_app_details (oracle (toString g.appid)) = (true, some d) →
        d.dlc = some lst → lst ≠ [] →
        (dlcLoop oracle [g] m).map = updMap m (toString g.appid) lst)
    ∧ (∀ d, get_app_details (oracle (toString g.appid)) = (true, some d) →
        (d.dlc = none ∨ d.dlc = some []) →
        (dlcLoop oracle [g] m).map = updMap m (toString g.appid) [])
    ∧ ((get_app_details (oracle (toString g.appid))).1 = false ∨
        (get_app_details (oracle (toString g.appid))).2 = none →
        (dlcLoop oracle [g] m).map = m) := by
  refine ⟨?_, ?_, ?_⟩
  · intro d lst h hd hne
    simp [dlcLoop, h, hd, hne]
  · intro d h hd
    rcases hd with hd | hd <;> simp [dlcLoop, h, hd]
  · intro h
    rcases h with h | h
    · simp [dlcLoop, h]
    · simp [dlcLoop, h]

def oracleA : String → Option AppDetailsResponse :=
  fun _ => some ⟨some true, some ⟨some [7]⟩⟩

def oracleB : String → Option AppDetailsResponse :=
  fun _ => some ⟨some true, some ⟨none⟩⟩

def oracleC : String → Option AppDetailsResponse := fun _ => none

/-- Witness for `c4_dlc_recording`: each of the three cases at a
concrete game and oracle. -/
theorem c4_dlc_recording_witness :
    (dlcLoop oracleA [⟨10, some "a"⟩] []).map = updMap [] "10" [7]
    ∧ (dlcLoop oracleB [⟨10, some "a"⟩] []).map = updMap [] "10" []
    ∧ (dlcLoop oracleC [⟨10, some "a"⟩] []).map = [] := by
  refine ⟨?_, ?_, ?_⟩
  · have h := (c4_dlc_recording oracleA ⟨10, some "a"⟩ []).1 ⟨some [7]⟩ [7] rfl rfl (by decide)
    rw [h]
    decide
  · have h := (c4_dlc_recording oracleB ⟨10, some "a"⟩ []).2.1 ⟨none⟩ rfl (Or.inl rfl)
    rw [h]
    decide
  · exact (c4_dlc_recording oracleC ⟨10, some "a"⟩ []).2.2 (Or.inl rfl)

/-- Modelled from the claim (for refutation): C5 asserts a pacing delay
between every two consecutive app-details calls regardless of outcome,
i.e. no two fetch events are ever adjacent in the trace. -/
def pacedBetweenCalls : List RefreshEvent → Bool
  | .fetch _ :: .fetch _ :: _ => false
  | _ :: rest => pacedBetweenCalls rest
  | [] => true

/-- An environment where the lookup for appid 10 fails and the one for
appid 20 succeeds with DLC `[99]`. -/
def env5 : RefreshEnv :=
  ⟨some "k", some "s", some ⟨some [⟨10, some "a"⟩, ⟨20, some "b"⟩], some 2⟩, true,
   .valid ⟨some []⟩,
   fun k => if k = "20" then some ⟨some true, some ⟨some [99]⟩⟩ else none,
   true, 0⟩

/-- C5 is false on the code: `time.sleep` sits inside the success
branch, so after the failed lookup for appid 10 the next call (appid
20) follows with NO sleep between them — the trace has two adjacent
fetch events. -/
theorem c5_counterexample :
    refresh_library_cache env5
      = .ok ⟨true, refreshMessage 2 1,
             some ⟨0, 2, [⟨10, some "a"⟩, ⟨20, some "b"⟩]⟩,
             some ⟨some [("20", [99])]⟩,
             [.fetch "10", .fetch "20", .sleep], 1⟩
    ∧ pacedBetweenCalls [.fetch "10", .fetch "20", .sleep] = false := by
  constructor
  · rw [refresh_success_shape env5 [⟨10, some "a"⟩, ⟨20, some "b"⟩] (some 2) ⟨some []⟩
      (by decide) (by decide) rfl rfl rfl]
    rw [show sortGames [⟨10, some "a"⟩, ⟨20, some "b"⟩] = [⟨10, some "a"⟩, ⟨20, some "b"⟩] from by
      simp [sortGames, List.mergeSort, List.splitInTwo, List.merge, strLe, charListLe,
        nameKey, pyLower]]
    simp only [Except.ok.injEq]
    decide
  · rfl

/-- C5 amended: the 50 ms pacing delay occurs after each successful
recorded app-details lookup only: in every `refresh_library_cache`
invocation the number of sleep events equals `dlc_fetch_count` (the
number of games recorded in the DLC map), not the number of calls
attempted. -/
theorem c5_sleep_per_success (env : RefreshEnv) (out : RefreshOutput)
    (h : refresh_library_cache env = .ok out) :
    out.events.countP RefreshEvent.isSleep = out.dlcFetchCount := by
  simp only [refresh_library_cache] at h
  split at h
  · cases h
    rfl
  · split at h
    · cases h
      rfl
    · split at h
      · cases h
        rfl
      · split at h
        · cases h
        · cases h
          exact dlcLoop_countSleep _ _ _

/-- Witness for `c5_sleep_per_success` at the concrete mixed-outcome
environment (one failed and one successful lookup: one sleep). -/
theorem c5_sleep_per_success_witness :
    ([RefreshEvent.fetch "10", RefreshEvent.fetch "20", RefreshEvent.sleep].countP
        RefreshEvent.isSleep) = 1 := by
  have h : refresh_library_cache env5
      = .ok ⟨true, refreshMessage 2 1,
             some ⟨0, 2, [⟨10, some "a"⟩, ⟨20, some "b"⟩]⟩,
             some ⟨some [("20", [99])]⟩,
             [.fetch "10", .fetch "20", .sleep], 1⟩ := by
    rw [refresh_success_shape env5 [⟨10, some "a"⟩, ⟨20, some "b"⟩] (some 2) ⟨some []⟩
      (by decide) (by decide) rfl rfl rfl]
    rw [show sortGames [⟨10, some "a"⟩, ⟨20, some "b"⟩] = [⟨10, some "a"⟩, ⟨20, some "b"⟩] from by
      simp [sortGames, List.mergeSort, List.splitInTwo, List.merge, strLe, charListLe,
        nameKey, pyLower]]
    simp only [Except.ok.injEq]
    decide
  exact c5_sleep_per_success env5 _ h

/-! ### `api_log_completion` (`src/routes/api.py:191-248`) -/

/-- The JSON body of a POST `/api/log` request.  An empty string for
`game_name` or `appid` models a missing or falsy field (the source
checks `not data.get(...)`); the remaining fields mirror the
`data.get(..., default)` reads of `api.py:216-227`. -/
structure LogRequest where
  game_name : String
  appid : String
  completion_date : Option String
  is_dlc_expansion : Bool
  notes : String
  collection_name : Option String
  deriving DecidableEq, Repr

/-- HTTP outcome of `api_log_completion`: 400 for missing fields, 409
(with the duplicate-appid message) for a duplicate, 201 with the new
entry id on success. -/
inductive LogResponse
  | badRequest
  | conflict (appid : String)
  | created (entryId : String)
  deriving DecidableEq, Repr

/-- Function `api_log_completion` (`api.py:191-248`): `uuid`, `nowDate` and
`nowIso` are the values of `uuid.uuid4()`, `datetime.now().strftime`
and `datetime.now().isoformat()`.  Duplicate check (`api.py:205`):
reject whenever ANY existing entry has the same appid, regardless of
`is_dlc_expansion` on either side.  The result of
`save_completed_log` is ignored by the source, so the returned list is
the log it wrote. -/
def api_log_completion (uuid nowDate nowIso : String) (req : LogRequest)
    (log : List CompletionEntry) : LogResponse × List CompletionEntry :=
  if req.game_name = "" || req.appid = "" then
    (.badRequest, log)
  else if log.any (fun e => e.appid == req.appid) then
    (.conflict req.appid, log)
  else
    let new_entry : CompletionEntry :=
      ⟨uuid, req.appid, req.game_name, req.completion_date.getD nowDate,
       req.is_dlc_expansion, req.notes, req.collection_name, nowIso⟩
    (.created uuid, log ++ [new_entry])

/-- C8: a non-expansion insertion whose appId already has a
non-expansion entry in the log is rejected with a conflict outcome and
the log is left unchanged. -/
theorem c8_duplicate_rejected (uuid nowDate nowIso : String) (req : LogRequest)
    (log : List CompletionEntry)
    (hname : req.game_name ≠ "") (happ : req.appid ≠ "")
    (hreq : req.is_dlc_expansion = false)
    (e : CompletionEntry) (he : e ∈ log) (heapp : e.appid = req.appid)
    (hee : e.is_dlc_expansion = false) :
    api_log_completion uuid nowDate nowIso req log = (.conflict req.appid, log) := by
  have hdup : log.any (fun x => x.appid == req.appid) = true :=
    List.any_eq_true.mpr ⟨e, he, by simp [heapp]⟩
  simp [api_log_completion, hname, happ, hdup]

def req440 : LogRequest :=
  ⟨"Team Fortress 2", "440", some "2024-01-01", false, "", none⟩

/-- Witness for `c8_duplicate_rejected`: logging appId 440 twice (both
non-expansion): the first insert is created and the log has length 1,
the second is rejected with a conflict and the log is unchanged. -/
theorem c8_duplicate_rejected_witness :
    (api_log_completion "id1" "2024-01-02" "t1" req440 []).1 = .created "id1"
    ∧ (api_log_completion "id1" "2024-01-02" "t1" req440 []).2.length = 1
    ∧ api_log_completion "id2" "2024-01-03" "t2" req440
        (api_log_completion "id1" "2024-01-02" "t1" req440 []).2
      = (.conflict "440",
         (api_log_completion "id1" "2024-01-02" "t1" req440 []).2) := by
  refine ⟨by decide, by decide, ?_⟩
  exact c8_duplicate_rejected "id2" "2024-01-03" "t2" req440
    (api_log_completion "id1" "2024-01-02" "t1" req440 []).2
    (by decide) (by decide) rfl
    ⟨"id1", "440", "Team Fortress 2", "2024-01-01", false, "", none, "t1"⟩
    (by decide) (by decide) (by decide)

/-! ### `api_search_games` (`src/routes/api.py:294-333`) -/

/-- An entry of a cached DLC list as the DLC search branch reads it
(a dict with `"appid"` and `"description"`; `description = none` models
a missing key, read with `.get("description", "")`).  Entries lacking
`"appid"` are skipped by the source's `"appid" in item` guard and are
not modelled; no claim involves them. -/
structure DlcItem where
  appid : Nat
  description : Option String
  deriving DecidableEq, Repr

/-- Function `api_search_games` (`api.py:294-333`).  Here `queryRaw`, `ty` and
`parentAppid` are the `query`, `type` and `parent_appid` request
arguments (`ty` defaults to `"game"` when absent; `parentAppid = none`
models an absent argument).  `libGames` is `LibraryCache.games` (the
source additionally skips entries that are not dicts or lack
`"appid"`; entries are modelled as well-formed records).  `dlcMap` is
`DlcCache["dlc"]` as the search reads it.  Results are
`(appid, name)` pairs in order. -/
def api_search_games (queryRaw ty : String) (parentAppid : Option String)
    (libGames : List OwnedGame) (dlcMap : List (String × List DlcItem)) :
    List (Nat × String) :=
  let query := pyStrip (pyLower queryRaw)
  if query = "" || query.length < 2 then []
  else if ty = "game" then
    (libGames.filter (fun g => strHas (pyLower (g.name.getD "")) query)).map
      (fun g => (g.appid, g.name.getD ""))
  else if ty = "dlc" then
    let p := parentAppid.getD ""
    if p ≠ "" && (dlcMap.map Prod.fst).contains p then
      match dlcMap.lookup p with
      | some items =>
        (items.filter (fun it => strHas (pyLower (it.description.getD "")) query)).map
          (fun it => (it.appid, it.description.getD ""))
      | none => []
    else []
  else []

def libAA : List OwnedGame := [⟨1, some "aa1"⟩, ⟨2, some "aa2"⟩]

/-- C9 is false on the code: `api_search_games` applies no limit
truncation at all (the endpoint reads no limit argument), so with two
matching games and limit 1 the claim demands at most one result while
the code returns both. -/
theorem c9_counterexample :
    (api_search_games "aa" "game" none libAA []).length = 2
    ∧ ¬ ((api_search_games "aa" "game" none libAA []).length ≤ 1) := by
  constructor
  · decide
  · decide

/-- The match predicate of the game search branch: the game's name
contains the processed query case-insensitively. -/
def gameMatches (query : String) (g : OwnedGame) : Bool :=
  strHas (pyLower (g.name.getD "")) query

/-- C9 amended: with no limit applied (the code truncates nothing),
game search returns exactly the library games whose name contains the
lowered-and-stripped query case-insensitively, as `(appid, name)`
pairs in cache order. -/
theorem c9_search_characterization (queryRaw : String) (p : Option String)
    (lib : List OwnedGame) (dlcMap : List (String × List DlcItem))
    (hlen : ¬ (pyStrip (pyLower queryRaw)).length < 2) :
    (api_search_games queryRaw "game" p lib dlcMap).Sublist
        (lib.map (fun g => (g.appid, g.name.getD "")))
    ∧ (∀ g ∈ lib, gameMatches (pyStrip (pyLower queryRaw)) g = true →
        (g.appid, g.name.getD "") ∈ api_search_games queryRaw "game" p lib dlcMap)
    ∧ ∀ x ∈ api_search_games queryRaw "game" p lib dlcMap,
        ∃ g, g ∈ lib ∧ gameMatches (pyStrip (pyLower queryRaw)) g = true
          ∧ x = (g.appid, g.name.getD "") := by
  have hne : ¬ pyStrip (pyLower queryRaw) = "" := by
    intro h
    rw [h] at hlen
    exact hlen (by decide)
  have hres : api_search_games queryRaw "game" p lib dlcMap
      = (lib.filter (fun g => strHas (pyLower (g.name.getD ""))
          (pyStrip (pyLower queryRaw)))).map (fun g => (g.appid, g.name.getD "")) := by
    simp [api_search_games, hne, hlen]
  rw [hres]
  refine ⟨?_, ?_, ?_⟩
  · exact (List.filter_sublist lib).map _
  · intro g hg hm
    exact List.mem_map.mpr ⟨g, List.mem_filter.mpr ⟨hg, hm⟩, rfl⟩
  · intro x hx
    rcases List.mem_map.mp hx with ⟨g, hgf, hgx⟩
    rcases List.mem_filter.mp hgf with ⟨hg, hm⟩
    exact ⟨g, hg, hm, hgx.symm⟩

def halfLib : List OwnedGame := [⟨220, some "Half-Life 2"⟩, ⟨620, some "Portal 2"⟩]

/-- Witness for `c9_search_characterization` at the spec's examples:
`searchGames("half")` contains Half-Life 2 and equals exactly
`[(220, "Half-Life 2")]`; `searchGames("zz")` is empty. -/
theorem c9_search_characterization_witness :
    ((220, "Half-Life 2") ∈ api_search_games "half" "game" none halfLib [])
    ∧ api_search_games "half" "game" none halfLib [] = [(220, "Half-Life 2")]
    ∧ api_search_games "zz" "game" none halfLib [] = [] := by
  refine ⟨?_, by decide, by decide⟩
  exact (c9_search_characterization "half" none halfLib [] (by decide)).2.1
    ⟨220, some "Half-Life 2"⟩ (by decide) (by decide)

/-- C10: any search request (game or DLC mode, any caches) whose
query lowers-and-strips to the empty string or to fewer than 2
characters returns the empty result list. -/
theorem c10_short_query (queryRaw ty : String) (p : Option String)
    (lib : List OwnedGame) (dlcMap : List (String × List DlcItem))
    (h : pyStrip (pyLower queryRaw) = ""
      ∨ (pyStrip (pyLower queryRaw)).length < 2) :
    api_search_games queryRaw ty p lib dlcMap = [] := by
  rcases h with h | h <;> simp [api_search_games, h]

/-- Witness for `c10_short_query`: the one-character query `"z"`
returns nothing even though the library contains "Zelda", whose
lowered name does contain `"z"`. -/
theorem c10_short_query_witness :
    api_search_games "z" "game" none [⟨3, some "Zelda"⟩] [] = []
    ∧ strHas (pyLower "Zelda") (pyStrip (pyLower "z")) = true := by
  refine ⟨?_, by decide⟩
  exact c10_short_query "z" "game" none [⟨3, some "Zelda"⟩] [] (Or.inr (by decide))

end GameTracker
